import Mathlib

/-!
Verification of the kart-io/go-example repository against its specification.

The repository is a collection of demo programs wiring the external
kart-io/logger library and the spf13/viper configuration library into small
HTTP services.  The definitions below are a shallow embedding of the demo
code: the configuration records and pure helper functions are translated
directly from the Go source; the behaviour of the external viper library
(default / file / environment-variable precedence) and of the external
logger library (initial-field defaulting) is modelled from the spec where
noted, since those libraries are not part of this repository.
-/

/-! ## Data model (viper-config-demo/config/config.go) -/

/-- ServerConfig from config.go: port, name, environment. -/
structure ServerConfig where
  port : Int
  name : String
  environment : String
deriving Repr, DecidableEq

/-- ServiceConfig from config.go: name, version, description. -/
structure ServiceConfig where
  name : String
  version : String
  description : String
deriving Repr, DecidableEq

/-- OTLPOption from the external option package, restricted to the fields the
demos touch: protocol, endpoint and the header map (a Go map that may be nil,
hence Option; modelled as an association list). -/
structure OTLPOption where
  protocol : String
  endpoint : String
  headers : Option (List (String × String))
deriving Repr, DecidableEq

/-- LogOption from the external option package, restricted to the fields the
demos read and write. -/
structure LogOption where
  engine : String
  level : String
  format : String
  development : Bool
  disableCaller : Bool
  disableStacktrace : Bool
  outputPaths : List String
  otlpEndpoint : String
  otlp : Option OTLPOption
deriving Repr, DecidableEq

/-- Config from config.go: server + service + logger sections. -/
structure Config where
  server : ServerConfig
  service : ServiceConfig
  logger : LogOption
deriving Repr, DecidableEq

/-- The Go map literal validEngines: membership test with default false. -/
def validEngines (e : String) : Bool :=
  e == "zap" || e == "slog"

/-- The Go map literal validLevels: membership test with default false. -/
def validLevels (l : String) : Bool :=
  l == "debug" || l == "info" || l == "warn" || l == "error" || l == "fatal"

/-- The Go map literal validFormats: membership test with default false. -/
def validFormats (f : String) : Bool :=
  f == "json" || f == "console"

/-- validateConfig from config.go, returning some errorMessage instead of a
non-nil Go error and none instead of nil. -/
def validateConfig (c : Config) : Option String :=
  if c.server.port ≤ 0 ∨ c.server.port > 65535 then
    some ("invalid server port: " ++ toString c.server.port)
  else if !(validEngines c.logger.engine) then
    some ("invalid logger engine: " ++ c.logger.engine)
  else if !(validLevels c.logger.level) then
    some ("invalid logger level: " ++ c.logger.level)
  else if !(validFormats c.logger.format) then
    some ("invalid logger format: " ++ c.logger.format)
  else
    none

/-- C1: validateConfig returns a non-nil error if and only if the
configuration violates one of the four fixed allow-lists: Server.Port outside
1..65535, Logger.Engine not in the engine list, Logger.Level not in the level
list, or Logger.Format not in the format list; otherwise it returns nil. -/
theorem validateConfig_error_iff (c : Config) :
    validateConfig c ≠ none ↔
      (¬(1 ≤ c.server.port ∧ c.server.port ≤ 65535) ∨
       ¬(c.logger.engine = "zap" ∨ c.logger.engine = "slog") ∨
       ¬(c.logger.level = "debug" ∨ c.logger.level = "info" ∨
         c.logger.level = "warn" ∨ c.logger.level = "error" ∨
         c.logger.level = "fatal") ∨
       ¬(c.logger.format = "json" ∨ c.logger.format = "console")) := by
  unfold validateConfig validEngines validLevels validFormats
  split_ifs with h1 h2 h3 h4
  · exact iff_of_true (by simp) (Or.inl (by omega))
  · simp at h2
    exact iff_of_true (by simp) (Or.inr (Or.inl (by tauto)))
  · simp at h3
    exact iff_of_true (by simp) (Or.inr (Or.inr (Or.inl (by tauto))))
  · simp at h4
    exact iff_of_true (by simp) (Or.inr (Or.inr (Or.inr (by tauto))))
  · simp at h2 h3 h4
    refine iff_of_false (by simp) ?_
    push_neg
    refine ⟨⟨by omega, by omega⟩, by tauto, by tauto, by tauto⟩

/-! ## Configuration loading (viper-config-demo/config/config.go)

LoadConfig reads a YAML file, merges environment-variable overrides
(prefix APP, dot-to-underscore transform), applies the defaults installed by
setDefaults, unmarshals into Config and validates.  The viper library itself
is external; its documented lookup precedence (explicit environment override,
then file value, then default) is modelled here as stated by the spec, while
the default values are exactly those set by setDefaults in config.go. -/

/-- A parsed YAML configuration file: every key the demo reads, each
optional (absent keys fall back to defaults). -/
structure ConfigFile where
  serverPort : Option Int
  serverName : Option String
  serverEnvironment : Option String
  serviceName : Option String
  serviceVersion : Option String
  serviceDescription : Option String
  loggerEngine : Option String
  loggerLevel : Option String
  loggerFormat : Option String
  loggerDevelopment : Option Bool
  loggerDisableCaller : Option Bool
  loggerDisableStacktrace : Option Bool
  loggerOutputPaths : Option (List String)
  loggerOtlpEndpoint : Option String
  loggerOtlp : Option OTLPOption
deriving Repr, DecidableEq

/-- The APP_-prefixed environment variables the demo documents as relevant
(getRelevantEnvVars in main.go); AutomaticEnv with the dot-to-underscore
replacer maps APP_SERVER_PORT to key server.port, and so on. -/
structure Env where
  appServerPort : Option Int
  appLoggerEngine : Option String
  appLoggerLevel : Option String
  appLoggerFormat : Option String
deriving Repr, DecidableEq

/-- The configuration file with no keys set. -/
def emptyConfigFile : ConfigFile :=
  ⟨none, none, none, none, none, none, none, none,
   none, none, none, none, none, none, none⟩

/-- The environment with no APP_ overrides set. -/
def emptyEnv : Env := ⟨none, none, none, none⟩

/-- Modelled from the spec: viper value lookup for one key, environment
override first, then the file value, then the setDefaults default. -/
def viperGet {α : Type} (envVal fileVal : Option α) (dflt : α) : α :=
  match envVal with
  | some v => v
  | none =>
    match fileVal with
    | some v => v
    | none => dflt

/-- v.Unmarshal(cm.config) after setDefaults: the Config built from the
effective value of each key.  The default values are the ones installed by
setDefaults in config.go (server.port 8080, logger.engine slog, ...). -/
def unmarshalConfig (f : ConfigFile) (e : Env) : Config :=
  { server :=
      { port := viperGet e.appServerPort f.serverPort 8080
        name := viperGet none f.serverName "viper-config-demo"
        environment := viperGet none f.serverEnvironment "development" }
    service :=
      { name := viperGet none f.serviceName "viper-config-api"
        version := viperGet none f.serviceVersion "v1.0.0"
        description := viperGet none f.serviceDescription
          "Viper configuration demo service" }
    logger :=
      { engine := viperGet e.appLoggerEngine f.loggerEngine "slog"
        level := viperGet e.appLoggerLevel f.loggerLevel "info"
        format := viperGet e.appLoggerFormat f.loggerFormat "json"
        development := viperGet none f.loggerDevelopment false
        disableCaller := viperGet none f.loggerDisableCaller false
        disableStacktrace := viperGet none f.loggerDisableStacktrace false
        outputPaths := viperGet none f.loggerOutputPaths ["stdout"]
        otlpEndpoint := viperGet none f.loggerOtlpEndpoint ""
        otlp := f.loggerOtlp } }

/-- ConfigManager from config.go: the viper instance is implicit in the
ConfigFile/Env arguments; config is a pointer that may be nil. -/
structure ConfigManager where
  config : Option Config
deriving Repr, DecidableEq

/-- The zero Go Config value that NewConfigManager allocates. -/
def zeroConfig : Config :=
  { server := { port := 0, name := "", environment := "" }
    service := { name := "", version := "", description := "" }
    logger :=
      { engine := "", level := "", format := "", development := false
        disableCaller := false, disableStacktrace := false
        outputPaths := [], otlpEndpoint := "", otlp := none } }

/-- NewConfigManager: fresh manager with a non-nil zero Config. -/
def newConfigManager : ConfigManager := { config := some zeroConfig }

/-- LoadConfig from config.go.  The file argument is none when
v.ReadInConfig fails (unreadable or unparsable file); otherwise the parsed
file.  On success the manager holds the unmarshalled config and it is
returned; each failure is the corresponding wrapped error. -/
def loadConfig (cm : ConfigManager) (file : Option ConfigFile) (e : Env) :
    Except String (ConfigManager × Config) :=
  match file with
  | none => .error "failed to read config file"
  | some f =>
    let c := unmarshalConfig f e
    let cm2 : ConfigManager := { cm with config := some c }
    match validateConfig c with
    | some msg => .error ("config validation failed: " ++ msg)
    | none => .ok (cm2, c)

/-- ToLoggerOption from config.go: errors when the config pointer is nil,
otherwise returns the Logger field of the loaded config. -/
def toLoggerOption (cm : ConfigManager) : Except String LogOption :=
  match cm.config with
  | none => .error "configuration not loaded"
  | some c => .ok c.logger

/-- LoadConfigFromFile from config.go: fresh manager, LoadConfig, then
ToLoggerOption; on any error it returns (nil, nil, err). -/
def loadConfigFromFile (file : Option ConfigFile) (e : Env) :
    Except String (Config × LogOption) :=
  match loadConfig newConfigManager file e with
  | .error msg => .error msg
  | .ok (cm2, c) =>
    match toLoggerOption cm2 with
    | .error msg => .error msg
    | .ok l => .ok (c, l)

/-- The config the loader produces from a file with no keys and no
environment overrides: every field is its setDefaults default. -/
def allDefaultsConfig : Config := unmarshalConfig emptyConfigFile emptyEnv

/-- C2 counterexample: the empty configuration file omits the logger
engine, level and format keys, yet LoadConfig succeeds (setDefaults has
installed slog/info/json, so validation passes), contradicting the claim
that loading such a file fails with a non-nil error. -/
theorem loadConfig_omitted_logger_fields_counterexample :
    emptyConfigFile.loggerEngine = none ∧
    emptyConfigFile.loggerLevel = none ∧
    emptyConfigFile.loggerFormat = none ∧
    loadConfig newConfigManager (some emptyConfigFile) emptyEnv =
      .ok ({ config := some allDefaultsConfig }, allDefaultsConfig) := by
  refine ⟨rfl, rfl, rfl, ?_⟩
  rfl

/-- C2 (amended): for every configuration file that omits the logger
engine, level and format keys (and no environment override supplies them),
LoadConfig substitutes the setDefaults defaults slog/info/json for the
missing fields, and loading succeeds exactly when the effective server
port lies in 1..65535 (in particular it does not fail on the logger
fields). -/
theorem loadConfig_omitted_logger_fields_use_defaults
    (f : ConfigFile) (e : Env)
    (hfE : f.loggerEngine = none) (hfL : f.loggerLevel = none)
    (hfF : f.loggerFormat = none)
    (heE : e.appLoggerEngine = none) (heL : e.appLoggerLevel = none)
    (heF : e.appLoggerFormat = none) :
    (unmarshalConfig f e).logger.engine = "slog" ∧
    (unmarshalConfig f e).logger.level = "info" ∧
    (unmarshalConfig f e).logger.format = "json" ∧
    (loadConfig newConfigManager (some f) e =
        .ok ({ config := some (unmarshalConfig f e) }, unmarshalConfig f e) ↔
      1 ≤ (unmarshalConfig f e).server.port ∧
        (unmarshalConfig f e).server.port ≤ 65535) := by
  refine ⟨?_, ?_, ?_, ?_⟩
  · simp [unmarshalConfig, viperGet, hfE, heE]
  · simp [unmarshalConfig, viperGet, hfL, heL]
  · simp [unmarshalConfig, viperGet, hfF, heF]
  · have hE2 : (unmarshalConfig f e).logger.engine = "slog" := by
      simp [unmarshalConfig, viperGet, hfE, heE]
    have hL2 : (unmarshalConfig f e).logger.level = "info" := by
      simp [unmarshalConfig, viperGet, hfL, heL]
    have hF2 : (unmarshalConfig f e).logger.format = "json" := by
      simp [unmarshalConfig, viperGet, hfF, heF]
    have hval : validateConfig (unmarshalConfig f e) = none ↔
        (1 ≤ (unmarshalConfig f e).server.port ∧
          (unmarshalConfig f e).server.port ≤ 65535) := by
      unfold validateConfig
      rw [hE2, hL2, hF2]
      simp only [validEngines, validLevels, validFormats]
      norm_num
      simp only [reduceCtorEq, imp_false]
      omega
    simp only [loadConfig]
    constructor
    · intro h
      cases hv2 : validateConfig (unmarshalConfig f e) with
      | none => exact hval.mp hv2
      | some msg =>
        rw [hv2] at h
        exact absurd h (by simp)
    · intro hp
      rw [hval.mpr hp]

/-- C2 witness: the amended theorem applied to the empty file and empty
environment; the defaulted port 8080 is in range, so loading succeeds. -/
theorem loadConfig_omitted_logger_fields_use_defaults_witness :
    (unmarshalConfig emptyConfigFile emptyEnv).logger.engine = "slog" ∧
    (unmarshalConfig emptyConfigFile emptyEnv).logger.level = "info" ∧
    (unmarshalConfig emptyConfigFile emptyEnv).logger.format = "json" ∧
    (loadConfig newConfigManager (some emptyConfigFile) emptyEnv =
        .ok ({ config := some (unmarshalConfig emptyConfigFile emptyEnv) },
          unmarshalConfig emptyConfigFile emptyEnv) ↔
      1 ≤ (unmarshalConfig emptyConfigFile emptyEnv).server.port ∧
        (unmarshalConfig emptyConfigFile emptyEnv).server.port ≤ 65535) :=
  loadConfig_omitted_logger_fields_use_defaults emptyConfigFile emptyEnv
    rfl rfl rfl rfl rfl rfl

/-- C3: LoadConfigFromFile either succeeds, returning a configuration
together with a logger option that is exactly the Logger field of that
configuration, or fails with an error: in particular when the file is
unreadable or unparsable (modelled as a none file), and when validation
fails; and after a successful LoadConfig the manager holds a non-nil
config, so ToLoggerOption never takes its "configuration not loaded"
branch. -/
theorem loadConfigFromFile_contract :
    (∀ file e c l, loadConfigFromFile file e = .ok (c, l) → l = c.logger) ∧
    (∀ e, loadConfigFromFile none e = .error "failed to read config file") ∧
    (∀ f e msg, validateConfig (unmarshalConfig f e) = some msg →
      loadConfigFromFile (some f) e =
        .error ("config validation failed: " ++ msg)) ∧
    (∀ file e cm2 c, loadConfig newConfigManager file e = .ok (cm2, c) →
      toLoggerOption cm2 ≠ .error "configuration not loaded") := by
  refine ⟨?_, ?_, ?_, ?_⟩
  · intro file e c l h
    cases file with
    | none => simp [loadConfigFromFile, loadConfig] at h
    | some f =>
      simp only [loadConfigFromFile, loadConfig] at h
      cases hv : validateConfig (unmarshalConfig f e) with
      | some msg =>
        rw [hv] at h
        simp at h
      | none =>
        rw [hv] at h
        simp only [toLoggerOption, Except.ok.injEq, Prod.mk.injEq] at h
        obtain ⟨hc, hl⟩ := h
        rw [← hc, ← hl]
  · intro e
    rfl
  · intro f e msg hv
    simp only [loadConfigFromFile, loadConfig, hv]
  · intro file e cm2 c h
    cases file with
    | none => simp [loadConfig] at h
    | some f =>
      simp only [loadConfig] at h
      cases hv : validateConfig (unmarshalConfig f e) with
      | some msg =>
        rw [hv] at h
        simp at h
      | none =>
        rw [hv] at h
        simp only [Except.ok.injEq, Prod.mk.injEq] at h
        obtain ⟨hcm, _⟩ := h
        rw [← hcm]
        simp [toLoggerOption]

/-- C3 witness: the contract applied to a concrete successful load (the
empty file with the defaulted configuration). -/
theorem loadConfigFromFile_contract_witness :
    allDefaultsConfig.logger = allDefaultsConfig.logger :=
  loadConfigFromFile_contract.1 (some emptyConfigFile) emptyEnv
    allDefaultsConfig allDefaultsConfig.logger (by rfl)

/-- C4: with the environment variable APP_SERVER_PORT=9000 set, the
unmarshalled configuration has server port 9000 regardless of the port
value written in the file, any configuration LoadConfig returns has server
port 9000, and the port validation check cannot be the cause of a
failure (9000 is inside 1..65535). -/
theorem envOverride_server_port
    (f : ConfigFile) (e : Env) (h : e.appServerPort = some 9000) :
    (unmarshalConfig f e).server.port = 9000 ∧
    (∀ cm2 c, loadConfig newConfigManager (some f) e = .ok (cm2, c) →
      c.server.port = 9000) ∧
    ¬((unmarshalConfig f e).server.port ≤ 0 ∨
      (unmarshalConfig f e).server.port > 65535) := by
  have hp : (unmarshalConfig f e).server.port = 9000 := by
    simp [unmarshalConfig, viperGet, h]
  refine ⟨hp, ?_, by omega⟩
  intro cm2 c hload
  simp only [loadConfig] at hload
  cases hv : validateConfig (unmarshalConfig f e) with
  | some msg =>
    rw [hv] at hload
    simp at hload
  | none =>
    rw [hv] at hload
    simp only [Except.ok.injEq, Prod.mk.injEq] at hload
    obtain ⟨_, hc⟩ := hload
    rw [← hc]
    exact hp

/-- C4 witness: the override theorem applied to the empty file and the
environment that sets only APP_SERVER_PORT=9000. -/
theorem envOverride_server_port_witness :
    (unmarshalConfig emptyConfigFile ⟨some 9000, none, none, none⟩).server.port
        = 9000 ∧
    (∀ cm2 c, loadConfig newConfigManager (some emptyConfigFile)
        ⟨some 9000, none, none, none⟩ = .ok (cm2, c) →
      c.server.port = 9000) ∧
    ¬((unmarshalConfig emptyConfigFile
        ⟨some 9000, none, none, none⟩).server.port ≤ 0 ∨
      (unmarshalConfig emptyConfigFile
        ⟨some 9000, none, none, none⟩).server.port > 65535) :=
  envOverride_server_port emptyConfigFile ⟨some 9000, none, none, none⟩ rfl

/-! ## Initial fields and the logger constructor (kart-io/logger, external)

The logger library is an external dependency, not part of this repository;
the demos in src/ rely on its documented guarantee that the constant-field
mapping of every logger always carries service.name and service.version,
with the literal string "unknown" substituted when the caller omits the
key.  That guarantee is modelled here from the spec. -/

/-- Lookup of a key in an association-list field mapping (a Go map). -/
def lookupField (k : String) : List (String × String) → Option String
  | [] => none
  | kv :: rest => if kv.1 == k then some kv.2 else lookupField k rest

theorem lookupField_append (k : String) (l1 l2 : List (String × String)) :
    lookupField k (l1 ++ l2) =
      match lookupField k l1 with
      | some v => some v
      | none => lookupField k l2 := by
  induction l1 with
  | nil => rfl
  | cons kv rest ih =>
    by_cases h : kv.1 == k
    · simp [lookupField, h]
    · simp only [List.cons_append, lookupField, h]
      simpa [h] using ih

/-- Modelled from the spec: the logger backend keeps a caller-supplied
value for the key and appends the key with value "unknown" when it is
absent. -/
def ensureField (k : String) (fields : List (String × String)) :
    List (String × String) :=
  match lookupField k fields with
  | some _ => fields
  | none => fields ++ [(k, "unknown")]

/-- Modelled from the spec: the constant-field mapping the logger
constructor derives from the caller-supplied InitialFields, with
service.name and service.version defaulted to "unknown" when missing. -/
def normalizeInitialFields (fields : List (String × String)) :
    List (String × String) :=
  ensureField "service.version" (ensureField "service.name" fields)

/-- Modelled from the spec: the fields an emitted log record carries are
the normalized constant fields followed by the call-site fields. -/
def emittedRecordFields (initial callFields : List (String × String)) :
    List (String × String) :=
  normalizeInitialFields initial ++ callFields

theorem lookupField_ensureField_self (k : String)
    (fields : List (String × String)) :
    lookupField k (ensureField k fields) =
      some ((lookupField k fields).getD "unknown") := by
  unfold ensureField
  cases h : lookupField k fields with
  | some v => simp [h]
  | none => simp [lookupField_append, h, lookupField]

theorem lookupField_ensureField_other (k k2 : String) (hne : k2 ≠ k)
    (fields : List (String × String)) :
    lookupField k (ensureField k2 fields) = lookupField k fields := by
  unfold ensureField
  cases h : lookupField k2 fields with
  | some v => rfl
  | none =>
    rw [lookupField_append]
    cases h2 : lookupField k fields with
    | some v => rfl
    | none => simp [lookupField, hne]

/-- C5: every emitted log record carries service.name and service.version;
when the caller-supplied InitialFields mapping (possibly empty) lacks the
key, its value is the literal string "unknown", and when the caller
supplies the key, the supplied value is used instead. -/
theorem emittedRecord_service_fields
    (fields callFields : List (String × String)) :
    lookupField "service.name" (emittedRecordFields fields callFields) =
      some ((lookupField "service.name" fields).getD "unknown") ∧
    lookupField "service.version" (emittedRecordFields fields callFields) =
      some ((lookupField "service.version" fields).getD "unknown") := by
  unfold emittedRecordFields normalizeInitialFields
  constructor
  · rw [lookupField_append,
      lookupField_ensureField_other "service.name" "service.version"
        (by decide),
      lookupField_ensureField_self]
  · rw [lookupField_append, lookupField_ensureField_self]
    cases h : lookupField "service.version" (ensureField "service.name" fields) with
    | some v =>
      rw [lookupField_ensureField_other "service.version" "service.name"
        (by decide)] at h
      simp [h]
    | none =>
      rw [lookupField_ensureField_other "service.version" "service.name"
        (by decide)] at h
      simp [h]

/-! ## HTTP handlers of the demos -/

/-- An HTTP response: status code and the string fields of the JSON body. -/
structure HttpResponse where
  status : Nat
  body : List (String × String)
deriving Repr, DecidableEq

/-- The demos that register a GET /health route. -/
inductive Demo where
  | ginDemo
  | viperConfigDemo
  | fileLoggingDemo
  | initialFieldsDemo
  | ginInitialFieldsDemo
deriving Repr, DecidableEq

/-- The runtime values the health handlers interpolate into their bodies. -/
structure DemoRuntime where
  serviceName : String
  serviceVersion : String
  environment : String
  gitVersion : String
deriving Repr, DecidableEq

/-- The GET /health handler of each demo, from the corresponding main:
gin-demo main.go, viper-config-demo main.go, file-logging-demo
webServerDemo, and the two initial-fields demos. -/
def healthHandler : Demo → DemoRuntime → HttpResponse
  | .ginDemo, rt => ⟨200, [("status", "healthy"), ("version", rt.gitVersion)]⟩
  | .viperConfigDemo, rt =>
      ⟨200, [("status", "healthy"), ("service", rt.serviceName),
             ("version", rt.serviceVersion), ("environment", rt.environment),
             ("uptime", "running")]⟩
  | .fileLoggingDemo, _ => ⟨200, [("status", "healthy")]⟩
  | .initialFieldsDemo, _ => ⟨200, [("status", "healthy")]⟩
  | .ginInitialFieldsDemo, rt =>
      ⟨200, [("status", "healthy"), ("version", rt.gitVersion)]⟩

/-- C6: in every demo, GET /health is answered with HTTP status 200 and a
JSON body whose status field is "healthy". -/
theorem healthHandler_ok (d : Demo) (rt : DemoRuntime) :
    (healthHandler d rt).status = 200 ∧
    lookupField "status" (healthHandler d rt).body = some "healthy" := by
  cases d <;> exact ⟨rfl, rfl⟩

/-- The GET /users/:id handler of the initial-fields demo
(src/unnamed/part_002): a simulated lookup that only finds id "123". -/
def getUserHandler (id : String) : HttpResponse :=
  if id == "123" then
    ⟨200, [("user_id", id), ("name", "John Doe"), ("status", "active")]⟩
  else
    ⟨404, [("error", "User not found"), ("user_id", id)]⟩

/-- The POST /users handler of the initial-fields demo
(src/unnamed/part_002): a simulated validation failure. -/
def postUsersHandler : HttpResponse :=
  ⟨400, [("error", "Email already exists")]⟩

/-- C7: in the initial-fields demo, GET /users/:id answers 404 with error
"User not found" for every id other than "123", answers 200 for id "123",
and POST /users always answers 400 with error "Email already exists". -/
theorem usersRoutes_spec :
    (∀ id, id ≠ "123" →
      (getUserHandler id).status = 404 ∧
      lookupField "error" (getUserHandler id).body = some "User not found") ∧
    (getUserHandler "123").status = 200 ∧
    postUsersHandler.status = 400 ∧
    lookupField "error" postUsersHandler.body = some "Email already exists" := by
  refine ⟨?_, by rfl, by rfl, by rfl⟩
  intro id h
  simp [getUserHandler, lookupField, h]

/-- C7 witness: the route theorem applied to the concrete id "999". -/
theorem usersRoutes_spec_witness :
    (getUserHandler "999").status = 404 ∧
    lookupField "error" (getUserHandler "999").body = some "User not found" :=
  usersRoutes_spec.1 "999" (by decide)

/-! ## Startup control flow of the demos (claim C8)

Each demo main calls logger.New and checks the returned error before any
route is registered and before the server is started.  The functions below
mirror the statement order of each main: the constructor result decides
whether the demo reaches route registration. -/

/-- What a demo startup has done: the routes registered, whether the
server was started, and whether the process aborted (panic or
os.Exit(1)). -/
structure StartupState where
  routesRegistered : List String
  serverStarted : Bool
  aborted : Bool
deriving Repr, DecidableEq

/-- The state a panic or os.Exit(1) leaves: aborted, nothing registered,
no server started. -/
def abortedStartup : StartupState := ⟨[], false, true⟩

/-- gin-demo main.go: logger.New, panic on error; otherwise gin.Default,
three routes, r.Run. -/
def ginDemoStartup (newResult : Except String Unit) : StartupState :=
  match newResult with
  | .error _ => abortedStartup
  | .ok _ => ⟨["/", "/health", "/version"], true, false⟩

/-- viper-config-demo main.go: config load with os.Exit(1) on failure,
then logger.New with os.Exit(1) on failure, then routes (the debug route
only in the development environment) and r.Run. -/
def viperDemoStartup (loadResult : Except String (Config × LogOption))
    (newResult : Except String Unit) : StartupState :=
  match loadResult with
  | .error _ => abortedStartup
  | .ok (c, _) =>
    match newResult with
    | .error _ => abortedStartup
    | .ok _ =>
      if c.server.environment == "development" then
        ⟨["/", "/health", "/version", "/config", "/logger/test",
          "/debug/config"], true, false⟩
      else
        ⟨["/", "/health", "/version", "/config", "/logger/test"], true, false⟩

/-- file-logging-demo singleFileDemo: logger.New, panic on error; this
demo registers no routes and starts no server. -/
def singleFileDemoStartup (newResult : Except String Unit) : StartupState :=
  match newResult with
  | .error _ => abortedStartup
  | .ok _ => ⟨[], false, false⟩

/-- file-logging-demo webServerDemo: two constructor calls (access logger
then app logger), panic on either error, then routes and the server. -/
def webServerDemoStartup (accessResult appResult : Except String Unit) :
    StartupState :=
  match accessResult with
  | .error _ => abortedStartup
  | .ok _ =>
    match appResult with
    | .error _ => abortedStartup
    | .ok _ => ⟨["/", "/health", "/error", "/logs"], true, false⟩

/-- initial-fields demo (src/unnamed/part_002): logger.New, panic on
error, then routes and the server. -/
def initialFieldsDemoStartup (newResult : Except String Unit) :
    StartupState :=
  match newResult with
  | .error _ => abortedStartup
  | .ok _ => ⟨["/", "/users/:id", "/users", "/health"], true, false⟩

/-- gin demo with initial fields (src/unnamed/part_003): logger.New,
panic on error, then routes and the server. -/
def ginInitialFieldsDemoStartup (newResult : Except String Unit) :
    StartupState :=
  match newResult with
  | .error _ => abortedStartup
  | .ok _ => ⟨["/", "/health", "/version"], true, false⟩

/-- C8: in every demo, whenever logger.New returns a non-nil error the
startup aborts with no route registered and no server started. -/
theorem loggerNew_error_aborts (msg : String) :
    ginDemoStartup (.error msg) = abortedStartup ∧
    (∀ c l, viperDemoStartup (.ok (c, l)) (.error msg) = abortedStartup) ∧
    singleFileDemoStartup (.error msg) = abortedStartup ∧
    (∀ r, webServerDemoStartup (.error msg) r = abortedStartup) ∧
    webServerDemoStartup (.ok ()) (.error msg) = abortedStartup ∧
    initialFieldsDemoStartup (.error msg) = abortedStartup ∧
    ginInitialFieldsDemoStartup (.error msg) = abortedStartup ∧
    abortedStartup.routesRegistered = [] ∧
    abortedStartup.serverStarted = false ∧
    abortedStartup.aborted = true :=
  ⟨rfl, fun _ _ => rfl, rfl, fun _ => rfl, rfl, rfl, rfl, rfl, rfl, rfl⟩

/-! ## sanitizeConfig (viper-config-demo/main.go, claim C9) -/

/-- The header-redaction loop inside sanitizeConfig: a fresh map with the
values of x-api-key and authorization replaced, all other entries kept. -/
def sanitizeHeaders (headers : List (String × String)) :
    List (String × String) :=
  headers.map fun kv =>
    if kv.1 == "x-api-key" || kv.1 == "authorization" then
      (kv.1, "***REDACTED***")
    else
      kv

/-- sanitizeConfig from viper-config-demo/main.go: copies the config and,
when the logger has an OTLP record with a non-nil header map, replaces the
OTLP record by a copy whose headers are the redacted map. -/
def otlpCopy (otlp : OTLPOption) (hs : List (String × String)) : OTLPOption :=
  ⟨otlp.protocol, otlp.endpoint, some (sanitizeHeaders hs)⟩

def sanitizeConfig (cfg : Config) : Config :=
  match cfg.logger.otlp with
  | none => cfg
  | some otlp =>
    match otlp.headers with
    | none => cfg
    | some hs =>
      { cfg with logger :=
          { cfg.logger with otlp := some (otlpCopy otlp hs) } }

theorem lookupField_sanitizeHeaders (k : String)
    (hs : List (String × String)) :
    lookupField k (sanitizeHeaders hs) =
      (lookupField k hs).map fun v =>
        if k == "x-api-key" || k == "authorization" then "***REDACTED***"
        else v := by
  induction hs with
  | nil => rfl
  | cons kv rest ih =>
    obtain ⟨k1, v1⟩ := kv
    by_cases h : k1 = k
    · subst h
      by_cases h2 : (k1 == "x-api-key" || k1 == "authorization") = true
      · simp [sanitizeHeaders, lookupField, h2]
      · simp [sanitizeHeaders, lookupField, h2]
    · have hb : (k1 == k) = false := by simp [h]
      by_cases h2 : (k1 == "x-api-key" || k1 == "authorization") = true
      · simpa [sanitizeHeaders, lookupField, h2, hb] using ih
      · simpa [sanitizeHeaders, lookupField, h2, hb] using ih

/-- C9: sanitizeConfig keeps the server, service and every logger field
except the OTLP headers; when there is no OTLP record or no header map,
the result is the argument unchanged; otherwise the OTLP copy keeps
protocol and endpoint and its headers are the original entries with
x-api-key and authorization redacted and all other values kept.  The
embedding is value-level: the Go function writes only its locals, so the
caller's configuration is unmodified. -/
theorem sanitizeConfig_spec (cfg : Config) :
    (sanitizeConfig cfg).server = cfg.server ∧
    (sanitizeConfig cfg).service = cfg.service ∧
    { (sanitizeConfig cfg).logger with otlp := cfg.logger.otlp } =
      cfg.logger ∧
    (cfg.logger.otlp = none → sanitizeConfig cfg = cfg) ∧
    (∀ o, cfg.logger.otlp = some o → o.headers = none →
      sanitizeConfig cfg = cfg) ∧
    (∀ o hs, cfg.logger.otlp = some o → o.headers = some hs →
      (sanitizeConfig cfg).logger.otlp = some (otlpCopy o hs) ∧
      ∀ k, lookupField k (sanitizeHeaders hs) =
        (lookupField k hs).map fun v =>
          if k == "x-api-key" || k == "authorization" then "***REDACTED***"
          else v) := by
  rcases ho : cfg.logger.otlp with _ | o
  · have he : sanitizeConfig cfg = cfg := by
      simp [sanitizeConfig, ho]
    refine ⟨by rw [he], by rw [he], by rw [he, ← ho], fun _ => he, ?_, ?_⟩
    · intro o2 h1 _
      exact Option.noConfusion h1
    · intro o2 hs2 h1 _
      exact Option.noConfusion h1
  · rcases hh : o.headers with _ | hs
    · have he : sanitizeConfig cfg = cfg := by
        simp [sanitizeConfig, ho, hh]
      refine ⟨by rw [he], by rw [he], by rw [he, ← ho], ?_, fun _ _ _ => he,
        ?_⟩
      · intro h1
        exact Option.noConfusion h1
      · intro o2 hs2 h1 h2
        injection h1 with h1
        subst h1
        rw [hh] at h2
        exact Option.noConfusion h2
    · have he : sanitizeConfig cfg =
          { cfg with logger :=
              { cfg.logger with otlp := some (otlpCopy o hs) } } := by
        simp [sanitizeConfig, ho, hh]
      refine ⟨by rw [he], by rw [he], by rw [he, ← ho], ?_, ?_, ?_⟩
      · intro h1
        exact Option.noConfusion h1
      · intro o2 h1 h2
        injection h1 with h1
        subst h1
        rw [hh] at h2
        exact Option.noConfusion h2
      · intro o2 hs2 h1 h2
        injection h1 with h1
        subst h1
        rw [hh] at h2
        injection h2 with h2
        subst h2
        exact ⟨by rw [he], fun k => lookupField_sanitizeHeaders k hs⟩

/-- Sample headers holding both sensitive keys and an ordinary one. -/
def sampleHeaders : List (String × String) :=
  [("x-api-key", "secret"), ("authorization", "token"), ("x-custom", "keep")]

/-- An OTLP record carrying the sample headers. -/
def sampleOTLP : OTLPOption := ⟨"grpc", "localhost:4317", some sampleHeaders⟩

/-- The defaulted config with the sample OTLP record attached. -/
def sampleConfig : Config :=
  { allDefaultsConfig with logger :=
      { allDefaultsConfig.logger with otlp := some sampleOTLP } }

/-- C9 witness: the sanitization theorem applied to the sample config. -/
theorem sanitizeConfig_spec_witness :
    (sanitizeConfig sampleConfig).logger.otlp =
      some (otlpCopy sampleOTLP sampleHeaders) ∧
    ∀ k, lookupField k (sanitizeHeaders sampleHeaders) =
      (lookupField k sampleHeaders).map fun v =>
        if k == "x-api-key" || k == "authorization" then "***REDACTED***"
        else v :=
  (sanitizeConfig_spec sampleConfig).2.2.2.2.2 sampleOTLP sampleHeaders rfl rfl

/-! ## Short commit hashes (claims about GitCommit slicing)

gin-demo main.go and src/unnamed/part_003 slice versionInfo.GitCommit with
the unguarded expression GitCommit[:8]; in Go this panics when the string
has fewer than 8 bytes.  viper-config-demo guards the same operation in
getShortCommit.  Commit strings here are ASCII, so byte length and
character length coincide. -/

/-- The unguarded Go slice expression commit[:8] in the gin-demo startup:
defined only when the string has at least 8 bytes; none models the
runtime panic (slice bounds out of range). -/
def ginShortCommit (commit : String) : Option String :=
  if 8 ≤ commit.length then some (commit.take 8) else none

/-- getShortCommit from viper-config-demo/main.go: the first 8 bytes when
the commit is long enough, the whole string otherwise. -/
def getShortCommit (commit : String) : String :=
  if 8 ≤ commit.length then commit.take 8 else commit

/-- C10 counterexample: the commit fallback value "unknown" injected by
the repository's own Makefile and Dockerfile (ARG COMMIT=unknown) has 7
bytes, so the unguarded gin-demo slice is out of bounds (a Go panic),
while getShortCommit returns the whole string. -/
theorem ginShortCommit_unknown_counterexample :
    ginShortCommit "unknown" = none ∧
    ("unknown" : String).length = 7 ∧
    getShortCommit "unknown" = "unknown" := by
  refine ⟨by decide, by decide, by decide⟩

/-- C10 (amended): the unguarded gin-demo slice GitCommit[:8] stays in
bounds exactly when GitCommit has at least 8 bytes — it is not safe for
every build-injected commit string — and on those strings it agrees with
the viper demo's guarded getShortCommit, which returns the whole string
when it is shorter than 8 bytes. -/
theorem shortCommit_bounds (s : String) :
    ((ginShortCommit s).isSome ↔ 8 ≤ s.length) ∧
    (8 ≤ s.length → ginShortCommit s = some (getShortCommit s)) ∧
    (s.length < 8 → getShortCommit s = s) := by
  refine ⟨?_, ?_, ?_⟩
  · unfold ginShortCommit
    split_ifs with h <;> simp [h]
  · intro h
    simp [ginShortCommit, getShortCommit, h]
  · intro h
    rw [getShortCommit, if_neg (by omega)]

/-- C10 witness: the bounds theorem applied to a 16-byte commit hash. -/
theorem shortCommit_bounds_witness :
    8 ≤ ("0123456789abcdef" : String).length ∧
    ginShortCommit "0123456789abcdef" =
      some (getShortCommit "0123456789abcdef") :=
  ⟨by decide, (shortCommit_bounds "0123456789abcdef").2.1 (by decide)⟩
